import Mathlib

/-!
Verification development for the `upp_water_bot` repository: a shallow
embedding, in Lean 4, of the notification-scheduling core found under
`src/` (the package evolution: `services/scheduler_service.py`,
`services/water_calculator.py`, `utils/time_utils.py`,
`database/db_manager.py`, `database/models.py`, `jobs/reminder_job.py`,
plus the alternative time localizer of the monolith `services.py`).

Conventions of the embedding:
- Python `int` is modelled as `ℤ`.  Python `//` and `%` always have a
  positive right operand in this code, where they agree with `Int.ediv`
  (Lean's `/`) and `Int.emod` (Lean's `%`).
- Python `float` arithmetic is modelled exactly by the `Frac` type of
  explicit integer fractions (the literals `1.1`, `1.2` become `11/10`,
  `12/10`); the built-in `round` (banker's rounding, half to even) is
  modelled by `Frac.pyRound`.  Every `Frac` built by the embedded code
  has a positive denominator, which the comparison and rounding
  operations assume.
- Python exceptions are modelled with `Option`/`Except`: a function
  that can raise returns `Except String _` (or `Option _`), and
  `.error`/`none` means the exception propagates to the caller.
- The sqlite database is modelled as in-memory lists of rows in
  insertion (rowid) order; `fetchone` of an unordered `SELECT` returns
  the first matching row in that order, and `INSERT` appends a row.
- The timezone databases of `zoneinfo` and `pytz` are modelled by one
  oracle mapping a timezone name to the local wall clock at the tick
  instant (`none` = the lookup raises, as `ZoneInfo`/`pytz.timezone`
  do on an unrecognized name).
-/

set_option maxRecDepth 2000

namespace WaterBot

/-! ### Exact fraction arithmetic (model of Python float expressions) -/

/-- An exact (unreduced) integer fraction `num / den`, used to model
Python float arithmetic without rounding error.  All fractions built by
the embedded code have `0 < den`. -/
structure Frac where
  num : ℤ
  den : ℤ
deriving DecidableEq

/-- Embeds an integer as a fraction. -/
def Frac.ofInt (n : ℤ) : Frac := ⟨n, 1⟩

/-- Fraction multiplication. -/
def Frac.mul (a b : Frac) : Frac := ⟨a.num * b.num, a.den * b.den⟩

/-- Fraction division. -/
def Frac.div (a b : Frac) : Frac := ⟨a.num * b.den, a.den * b.num⟩

/-- Fraction addition. -/
def Frac.add (a b : Frac) : Frac := ⟨a.num * b.den + b.num * a.den, a.den * b.den⟩

/-- Fraction subtraction. -/
def Frac.sub (a b : Frac) : Frac := ⟨a.num * b.den - b.num * a.den, a.den * b.den⟩

/-- Strict comparison of fractions; correct when both denominators are
positive, which holds for every fraction the embedded code builds. -/
def Frac.lt (a b : Frac) : Bool := a.num * b.den < b.num * a.den

/-- Floor of a fraction (for a positive denominator `Int.ediv` is floor
division, as Python's `//`). -/
def Frac.floor (f : Frac) : ℤ := f.num / f.den

/-- Ceiling of a fraction with positive denominator, modelling
`math.ceil`. -/
def Frac.ceil (f : Frac) : ℤ := -(-f.num / f.den)

/-- Models Python 3's built-in `round` on a float value `num / den`
with `0 < den`: round half to even (banker's rounding).  `f.num % f.den`
is the fractional part scaled by `den`; it is compared with `den / 2`
by cross-multiplication. -/
def Frac.pyRound (f : Frac) : ℤ :=
  let fl := f.num / f.den
  let r := f.num % f.den
  if 2 * r < f.den then fl
  else if f.den < 2 * r then fl + 1
  else if 2 ∣ fl then fl else fl + 1

/-! ### `"HH:MM"` strings

The source passes wall-clock times around as `"HH:MM"` strings, parsing
them with `map(int, s.split(':'))` and producing them with
`f"{h:02d}:{m:02d}"`.  Both are modelled here at the character level. -/

/-- Splits a character list at a separator, modelling `str.split`; the
second argument accumulates the current field in reverse. -/
def splitCh (sep : Char) : List Char → List Char → List (List Char)
  | [], acc => [acc.reverse]
  | c :: rest, acc =>
    if c = sep then acc.reverse :: splitCh sep rest []
    else splitCh sep rest (c :: acc)

/-- Parses a digit string as a number, modelling Python `int` on the
well-formed inputs that occur (on malformed input, where Python would
raise, it returns a junk value; no claim exercises that case). -/
def pyIntChars (cs : List Char) : ℤ :=
  (cs.foldl (fun acc c => acc * 10 + (c.toNat - 48)) 0 : ℕ)

/-- Parses an `"HH:MM"` string to a minute-of-day count, modelling
`h, m = map(int, s.split(':')); h * 60 + m` as used in
`services/scheduler_service.py` and `jobs/reminder_job.py`. -/
def hmToMinutes (s : String) : ℤ :=
  match splitCh ':' s.data [] with
  | [h, m] => pyIntChars h * 60 + pyIntChars m
  | _ => 0

/-- The character of a single digit. -/
def digitChar (n : ℕ) : Char := Char.ofNat (48 + n)

/-- Two-digit zero-padded rendering, modelling `f"{n:02d}"` for
`n < 100` (the only range that occurs: hours and minutes). -/
def pad2 (n : ℕ) : List Char :=
  if n < 10 then ['0', digitChar n] else [digitChar (n / 10 % 10), digitChar (n % 10)]

/-- Formats a minute-of-day value as `"HH:MM"`, modelling
`f"{total_min // 60:02d}:{total_min % 60:02d}"` in
`services/scheduler_service.py`. -/
def minutesToHM (total_min : ℤ) : String :=
  ⟨pad2 (total_min.toNat / 60) ++ ':' :: pad2 (total_min.toNat % 60)⟩

/-- A string is a canonical `"HH:MM"` time when it denotes a
minute-of-day below 1440 and re-formatting its parse reproduces it
(two two-digit zero-padded fields). -/
def canonicalHM (s : String) : Prop :=
  0 ≤ hmToMinutes s ∧ hmToMinutes s < 1440 ∧ minutesToHM (hmToMinutes s) = s

instance (s : String) : Decidable (canonicalHM s) := by
  unfold canonicalHM; infer_instance

/-- Comparison of `"HH:MM"` strings as times of day. -/
def hmLe (a b : String) : Prop := hmToMinutes a ≤ hmToMinutes b

instance (a b : String) : Decidable (hmLe a b) := by
  unfold hmLe; infer_instance

/-! ### `services/water_calculator.py` -/

/-- Embeds `calculate_norm` from `services/water_calculator.py`: the
daily water goal from weight, gender string, activity-level string and
an optional temperature.  Note that the activity map is keyed by the
Russian labels exactly as in the source, while its callers store the
English labels `"low"`/`"medium"`/`"high"`.  The final line models
`math.ceil(norm_ml / 250) * 250`. -/
def calculate_norm (weight : ℤ) (gender activity_level : String)
    (temperature : Option Frac) : ℤ :=
  let base_ml : Frac := Frac.ofInt (weight * 30)
  let gender_coef : Frac := if gender = "male" then ⟨11, 10⟩ else ⟨1, 1⟩
  let activity_coef : Frac :=
    if activity_level = "низкая" then ⟨1, 1⟩
    else if activity_level = "средняя" then ⟨11, 10⟩
    else if activity_level = "высокая" then ⟨12, 10⟩
    else ⟨1, 1⟩
  let norm0 : Frac := (base_ml.mul gender_coef).mul activity_coef
  let norm1 : Frac :=
    match temperature with
    | some t =>
      if (Frac.ofInt 20).lt t then
        let extra_degrees : Frac := t.sub (Frac.ofInt 20)
        let bonus_percent : ℤ := min 30 ((extra_degrees.div (Frac.ofInt 5)).floor * 5)
        norm0.mul ((Frac.ofInt 1).add ((Frac.ofInt bonus_percent).div (Frac.ofInt 100)))
      else norm0
    | none => norm0
  (norm1.div (Frac.ofInt 250)).ceil * 250

/-! ### `services/scheduler_service.py` -/

/-- Numeric core of `generate_reminder_schedule`: the loop emitting
`(start_minutes + round(i * interval)) % 1440` for
`i in range(total_glasses)`, with
`interval = (end_minutes - start_minutes) / (total_glasses - 1)` in
float (here: exact) arithmetic. -/
def scheduleMinutes (start_minutes end_minutes total_glasses : ℤ) : List ℤ :=
  let interval : Frac :=
    (Frac.ofInt (end_minutes - start_minutes)).div (Frac.ofInt (total_glasses - 1))
  (List.range total_glasses.toNat).map
    (fun i : ℕ => (start_minutes + ((Frac.ofInt (i : ℤ)).mul interval).pyRound) % 1440)

/-- Embeds `generate_reminder_schedule` from
`services/scheduler_service.py`: `total_glasses <= 1` returns the start
string unchanged; otherwise the endpoints are parsed, an end at or
before the start is pushed forward by 24 hours, and the evenly spaced
times are emitted as `"HH:MM"` strings. -/
def generate_reminder_schedule (notification_start notification_end : String)
    (total_glasses : ℤ) : List String :=
  if total_glasses ≤ 1 then [notification_start]
  else
    let start_minutes := hmToMinutes notification_start
    let em0 := hmToMinutes notification_end
    let end_minutes := if em0 ≤ start_minutes then em0 + 1440 else em0
    (scheduleMinutes start_minutes end_minutes total_glasses).map minutesToHM

/-! ### Database model (`database/models.py`, `database/db_manager.py`)

`init_db` creates `users`, `water_logs`, `daily_schedule` and
`sent_reminders`; `daily_schedule` has an autoincrement primary key and
no uniqueness constraint on `(user_id, date_local)`.  Rows are held in
insertion order.  The `generated_at` timestamp column and the columns
`height`/`created_at` are not modelled (no claim mentions them). -/

/-- A row of the `users` table. -/
structure UserRow where
  user_id : ℤ
  weight : ℤ
  gender : String
  activity_level : String
  timezone : String
  notification_start : String
  notification_end : String
  city : Option String
  notifications_enabled : Bool
deriving DecidableEq

/-- A row of the `daily_schedule` table (`reminder_times` holds the
JSON-decoded list of `"HH:MM"` strings). -/
structure SchedRow where
  user_id : ℤ
  date_local : String
  goal_ml : ℤ
  reminder_times : List String
deriving DecidableEq

/-- The database state: the four tables, each in insertion order.
`sent_reminders` rows are `(user_id, date, reminder_type)`;
`water_logs` rows are `(user_id, date, ml)`. -/
structure DB where
  users : List UserRow
  daily_schedule : List SchedRow
  sent_reminders : List (ℤ × String × String)
  water_logs : List (ℤ × String × ℤ)
deriving DecidableEq

/-- Embeds `DatabaseManager.get_user`: `SELECT * FROM users WHERE
user_id = ?` with `fetchone`. -/
def get_user (db : DB) (uid : ℤ) : Option UserRow :=
  db.users.find? (fun u => u.user_id == uid)

/-- Embeds `DatabaseManager.get_daily_schedule`: `SELECT * FROM
daily_schedule WHERE user_id = ? AND date_local = ?` with `fetchone`
(the first matching row in rowid order). -/
def get_daily_schedule (db : DB) (uid : ℤ) (local_date : String) : Option SchedRow :=
  db.daily_schedule.find? (fun r => r.user_id == uid && r.date_local == local_date)

/-- Embeds `DatabaseManager.save_daily_schedule`: a plain `INSERT INTO
daily_schedule`, which appends a new row. -/
def save_daily_schedule (db : DB) (uid : ℤ) (date_local : String) (goal_ml : ℤ)
    (reminder_times : List String) : DB :=
  { db with daily_schedule := db.daily_schedule ++ [⟨uid, date_local, goal_ml, reminder_times⟩] }

/-- The local wall clock observed for one timezone at one instant:
what `get_user_local_time(tz)` plus the `strftime` calls of the
reminder job yield (hour, minute, and the `"YYYY-MM-DD"` date). -/
structure LocalClock where
  hour : ℤ
  minute : ℤ
  dateStr : String
deriving DecidableEq

/-- The external world during one tick: the timezone oracle (`none` =
`ZoneInfo`/`pytz.timezone` raises for that name), the weather service
`get_current_temp` (total, `none` on any failure), and whether
`bot.send_message` succeeds for a chat. -/
structure Env where
  clock : String → Option LocalClock
  temp : String → Option Frac
  sendOk : ℤ → Bool

/-- Embeds `DatabaseManager.mark_reminder_sent`: looks the user up,
computes the user's local date (raising on a bad timezone), and inserts
a `sent_reminders` row.  No operation of `DatabaseManager` ever deletes
from `sent_reminders`. -/
def mark_reminder_sent (env : Env) (db : DB) (uid : ℤ) (reminder_type : String) :
    Except String DB :=
  match get_user db uid with
  | none => .ok db
  | some u =>
    match env.clock u.timezone with
    | none => .error u.timezone
    | some lc =>
      .ok { db with sent_reminders := db.sent_reminders ++ [(uid, lc.dateStr, reminder_type)] }

/-- Embeds `DatabaseManager.is_reminder_sent_today`: `SELECT COUNT(*)
FROM sent_reminders WHERE user_id = ? AND date = ? AND reminder_type =
?` compared with 0. -/
def is_reminder_sent_today (env : Env) (db : DB) (uid : ℤ) (reminder_type : String) :
    Except String Bool :=
  match get_user db uid with
  | none => .ok false
  | some u =>
    match env.clock u.timezone with
    | none => .error u.timezone
    | some lc =>
      .ok (db.sent_reminders.any
        (fun r => r.1 == uid && r.2.1 == lc.dateStr && r.2.2 == reminder_type))

/-! ### `jobs/reminder_job.py` -/

/-- The three message shapes of `send_reminder`: the first scheduled
time gets the morning message, the last the evening report, anything
else the plain reminder. -/
inductive MsgKind
  | morning
  | evening
  | plain
deriving DecidableEq

/-- A successful delivery performed during a tick. -/
structure Delivery where
  user_id : ℤ
  scheduled_time : String
  kind : MsgKind
deriving DecidableEq

/-- The classification made at the top of `send_reminder`:
`scheduled_time == all_times[0]`, `scheduled_time == all_times[-1]`,
else intermediate (string comparison, as in the source). -/
def classify (all_times : List String) (t : String) : MsgKind :=
  if all_times.head? == some t then .morning
  else if all_times.getLast? == some t then .evening
  else .plain

/-- Embeds `send_reminder`: the message kind is classified, the send is
attempted, and a failing send is caught and logged (so it yields no
delivery and no exception).  The content of the three messages is not
modelled. -/
def send_reminder (env : Env) (u : UserRow) (all_times : List String) (t : String) :
    Option Delivery :=
  if env.sendOk u.user_id then some ⟨u.user_id, t, classify all_times t⟩ else none

/-- The temperature lookup of the generation branch: `temp = None;
if user['city']: temp = get_current_temp(user['city'])` (both `None`
and an empty string are falsy). -/
def lookup_temp (env : Env) (u : UserRow) : Option Frac :=
  match u.city with
  | some c => if c = "" then none else env.temp c
  | none => none

/-- Section `=== 1 ===` of the per-user loop body: if no schedule row
exists for today's local date and the local time is within 5 minutes
at-or-after `notification_start`, compute the goal, derive the glass
count `max(1, (norm_ml + 249) // 250)`, generate the times and insert
the schedule row.  Returns the database afterwards and the schedule
(fresh or pre-existing) to send from, if any. -/
def gen_phase (env : Env) (db : DB) (u : UserRow) (lc : LocalClock) :
    DB × Option SchedRow :=
  match get_daily_schedule db u.user_id lc.dateStr with
  | some sch => (db, some sch)
  | none =>
    let time_diff := (lc.hour * 60 + lc.minute) - hmToMinutes u.notification_start
    if 0 ≤ time_diff ∧ time_diff ≤ 5 then
      let norm_ml := calculate_norm u.weight u.gender u.activity_level
        (lookup_temp env u)
      let glasses := max 1 ((norm_ml + 249) / 250)
      let times := generate_reminder_schedule u.notification_start
        u.notification_end glasses
      (save_daily_schedule db u.user_id lc.dateStr norm_ml times,
        some ⟨u.user_id, lc.dateStr, norm_ml, times⟩)
    else (db, none)

/-- Section `=== 2 ===` of the per-user loop body: attempt a send for
every reminder time `t` of the schedule that satisfies
`0 <= local_now - t <= 5` (failed sends yield no delivery). -/
def send_phase (env : Env) (u : UserRow) (nowMin : ℤ) (sch : SchedRow) :
    List Delivery :=
  sch.reminder_times.filterMap (fun t =>
    let time_diff := nowMin - hmToMinutes t
    if 0 ≤ time_diff ∧ time_diff ≤ 5 then send_reminder env u sch.reminder_times t
    else none)

/-- The body of the per-user loop of `check_and_send_reminders`: obtain
the user's local time (an unknown timezone raises, which propagates out
of this body), then run the generation phase and the send phase. -/
def process_user (env : Env) (db : DB) (u : UserRow) :
    Except String (DB × List Delivery) :=
  match env.clock u.timezone with
  | none => .error u.timezone
  | some lc =>
    let pr := gen_phase env db u lc
    match pr.2 with
    | none => .ok (pr.1, [])
    | some sch => .ok (pr.1, send_phase env u (lc.hour * 60 + lc.minute) sch)

/-- The outcome of one tick: the database afterwards, the deliveries
made, and the exception (if any) that escaped the per-user loop and
aborted it. -/
structure TickResult where
  db : DB
  deliveries : List Delivery
  error : Option String
deriving DecidableEq

/-- The per-user loop of `check_and_send_reminders`, processing users
in order; an exception from one user's body aborts the whole loop with
the remaining users unprocessed. -/
def checkLoop (env : Env) : List UserRow → DB → List Delivery → TickResult
  | [], db, acc => ⟨db, acc, none⟩
  | u :: us, db, acc =>
    match process_user env db u with
    | .error e => ⟨db, acc, some e⟩
    | .ok (db', ds) => checkLoop env us db' (acc ++ ds)

/-- Embeds `check_and_send_reminders` from `jobs/reminder_job.py`: one
tick of the dispatcher over all users with notifications enabled. -/
def check_and_send_reminders (env : Env) (db : DB) : TickResult :=
  checkLoop env (db.users.filter (·.notifications_enabled)) db []

/-! ### The two time localizers

`utils/time_utils.py` (imported by the reminder job):
`get_user_local_time(tz)` constructs `ZoneInfo(timezone_str)` directly,
so an unrecognized name raises.  The monolith `services.py` localizer
is keyed by user id and falls back to `datetime.utcnow()` when the user
is missing, the timezone field is empty, or `ZoneInfo` raises.  Both
are modelled over an offset table `zones` (minutes east of UTC;
`none` = unrecognized name) and a UTC instant in minutes. -/

/-- Embeds `get_user_local_time` of `utils/time_utils.py`: `none`
models the `ZoneInfo` exception propagating to the caller. -/
def get_user_local_time_utils (zones : String → Option ℤ) (utcNow : ℤ)
    (timezone_str : String) : Option ℤ :=
  (zones timezone_str).map (fun off => utcNow + off)

/-- Embeds `get_user_local_time` of the monolith `services.py` (lines
766-778): missing user, empty timezone and unrecognized timezone all
fall back to the UTC clock; the function never raises. -/
def get_user_local_time_services (zones : String → Option ℤ) (utcNow : ℤ)
    (db : DB) (user_id : ℤ) : ℤ :=
  match get_user db user_id with
  | none => utcNow
  | some u =>
    if u.timezone = "" then utcNow
    else
      match zones u.timezone with
      | some off => utcNow + off
      | none => utcNow

/-! ### Concrete fixtures used by witnesses and counterexamples -/

/-- The empty database. -/
def emptyDB : DB := ⟨[], [], [], []⟩

/-- A registered user as the handlers store one: English activity
label, canonical window strings. -/
def exUser : UserRow :=
  ⟨1, 70, "male", "medium", "Europe/Berlin", "08:00", "22:00", none, true⟩

/-- A tick environment whose zone table knows only `"Europe/Berlin"`,
showing it the given wall clock; weather is unavailable and every send
succeeds. -/
def exEnv (h m : ℤ) (date : String) : Env :=
  { clock := fun tz => if tz = "Europe/Berlin" then some ⟨h, m, date⟩ else none
    temp := fun _ => none
    sendOk := fun _ => true }

/-- A stored schedule for `exUser` on 2024-06-01. -/
def exSched : SchedRow := ⟨1, "2024-06-01", 750, ["10:00", "15:00", "20:00"]⟩

/-- Database holding `exUser` and `exSched`. -/
def dbWithSched : DB := ⟨[exUser], [exSched], [], []⟩

/-- Database whose only schedule row has its single reminder one minute
in the future of a 10:00 tick. -/
def dbFuture : DB := ⟨[exUser], [⟨1, "2024-06-01", 750, ["10:01"]⟩], [], []⟩

/-- A user whose stored timezone the zone table does not know. -/
def badTzUser : UserRow :=
  ⟨2, 60, "female", "low", "Mars/Olympus", "08:00", "22:00", none, true⟩

/-- Database listing `badTzUser` before `exUser`, the latter with a
reminder due at 10:00. -/
def dbBadFirst : DB := ⟨[badTzUser, exUser], [exSched], [], []⟩

/-- Database in which `exUser` has already exceeded the 500 ml goal of
the day (600 ml logged) and has a schedule with an intermediate
reminder at 12:00. -/
def dbGoalMet : DB :=
  ⟨[exUser], [⟨1, "2024-06-01", 500, ["08:00", "12:00", "20:00"]⟩], [],
    [(1, "2024-06-01", 600)]⟩

/-- Database holding `exUser` and no schedule. -/
def dbNoSched : DB := ⟨[exUser], [], [], []⟩

/-- Database holding `exUser` and one previously recorded sent
reminder. -/
def dbSent : DB := ⟨[exUser], [], [(1, "2024-05-31", "morning")], []⟩

end WaterBot

namespace WaterBot

/-! ### Lemmas about `Frac.pyRound` -/

/-- Rounding an exact multiple of the denominator returns the integer. -/
theorem pyRound_mul_den {k d : ℤ} (hd : 0 < d) : Frac.pyRound ⟨k * d, d⟩ = k := by
  have h1 : k * d / d = k := Int.mul_ediv_cancel k (by omega)
  have h2 : k * d % d = 0 := Int.mul_emod_left k d
  simp only [Frac.pyRound, h1, h2]
  split_ifs <;> omega

/-- Rounding of zero. -/
theorem pyRound_zero {d : ℤ} (hd : 0 < d) : Frac.pyRound ⟨0, d⟩ = 0 := by
  have := pyRound_mul_den (k := 0) hd
  simpa using this

/-- Banker's rounding is monotone in the numerator for a fixed positive
denominator. -/
theorem pyRound_mono {d a b : ℤ} (hd : 0 < d) (h : a ≤ b) :
    Frac.pyRound ⟨a, d⟩ ≤ Frac.pyRound ⟨b, d⟩ := by
  simp only [Frac.pyRound]
  have hfa : d * (a / d) + a % d = a := Int.ediv_add_emod a d
  have hfb : d * (b / d) + b % d = b := Int.ediv_add_emod b d
  have hra0 : 0 ≤ a % d := Int.emod_nonneg a (by omega)
  have hrad : a % d < d := Int.emod_lt_of_pos a hd
  have hrb0 : 0 ≤ b % d := Int.emod_nonneg b (by omega)
  have hrbd : b % d < d := Int.emod_lt_of_pos b hd
  have hdiv : a / d ≤ b / d := Int.ediv_le_ediv hd h
  rcases lt_or_eq_of_le hdiv with hlt | heq
  · split_ifs <;> omega
  · have key : a % d ≤ b % d := by
      rw [heq] at hfa
      linarith [hfa, hfb, h]
    rw [heq]
    split_ifs <;> omega

/-- Banker's rounding of a non-negative value is non-negative. -/
theorem pyRound_nonneg {d a : ℤ} (hd : 0 < d) (ha : 0 ≤ a) :
    0 ≤ Frac.pyRound ⟨a, d⟩ := by
  have := pyRound_mono hd ha
  rw [pyRound_zero hd] at this
  exact this

/-! ### Lemmas about `"HH:MM"` parsing and formatting -/

/-- Splitting a list free of the separator yields one field. -/
theorem splitCh_no_sep {sep : Char} :
    ∀ (ys acc : List Char), sep ∉ ys → splitCh sep ys acc = [acc.reverse ++ ys]
  | [], acc, _ => by simp [splitCh]
  | c :: rest, acc, h => by
    have hc : c ≠ sep := fun hc => h (hc ▸ List.mem_cons_self c rest)
    have hrest : sep ∉ rest := fun hr => h (List.mem_cons_of_mem c hr)
    simp only [splitCh, if_neg (Ne.symm hc ∘ Eq.symm)]
    rw [splitCh_no_sep rest (c :: acc) hrest]
    simp

/-- Splitting a list with exactly one separator yields the two fields. -/
theorem splitCh_once {sep : Char} :
    ∀ (xs ys acc : List Char), sep ∉ xs → sep ∉ ys →
      splitCh sep (xs ++ sep :: ys) acc = [acc.reverse ++ xs, ys]
  | [], ys, acc, _, hys => by
    simp only [List.nil_append, splitCh, if_pos rfl]
    rw [splitCh_no_sep ys [] hys]
    simp
  | x :: xs, ys, acc, hxs, hys => by
    have hx : x ≠ sep := fun hc => hxs (hc ▸ List.mem_cons_self x xs)
    have hxs' : sep ∉ xs := fun hr => hxs (List.mem_cons_of_mem x hr)
    simp only [List.cons_append, splitCh, if_neg (Ne.symm hx ∘ Eq.symm), List.append_eq]
    rw [splitCh_once xs ys (x :: acc) hxs' hys]
    simp

/-- The colon never occurs in a two-digit field. -/
theorem pad2_no_colon : ∀ n : ℕ, n < 100 → ':' ∉ pad2 n := by decide

/-- Parsing inverts two-digit formatting. -/
theorem pyIntChars_pad2 : ∀ n : ℕ, n < 100 → pyIntChars (pad2 n) = (n : ℤ) := by decide

/-- Parsing inverts formatting on every minute-of-day value. -/
theorem hm_roundtrip {m : ℤ} (h0 : 0 ≤ m) (h1 : m < 1440) :
    hmToMinutes (minutesToHM m) = m := by
  have hh : m.toNat / 60 < 100 := by omega
  have hm : m.toNat % 60 < 100 := by omega
  unfold minutesToHM hmToMinutes
  rw [show (String.mk (pad2 (m.toNat / 60) ++ ':' :: pad2 (m.toNat % 60))).data
      = pad2 (m.toNat / 60) ++ ':' :: pad2 (m.toNat % 60) from rfl]
  rw [splitCh_once _ _ _ (pad2_no_colon _ hh) (pad2_no_colon _ hm)]
  simp only [List.reverse_nil, List.nil_append]
  rw [pyIntChars_pad2 _ hh, pyIntChars_pad2 _ hm]
  omega

/-! ### A `filterMap` normal form for the send phase -/

/-- Filtering with an `if`-guarded `some` is a `filter` then `map`. -/
theorem filterMap_if_filter {α β : Type} (p : α → Prop) [DecidablePred p]
    (g : α → β) (l : List α) :
    (l.filterMap fun t => if p t then some (g t) else none) =
      (l.filter fun t => decide (p t)).map g := by
  induction l with
  | nil => rfl
  | cons x xs ih =>
    by_cases hx : p x <;> simp [List.filterMap_cons, List.filter_cons, hx, ih]

/-! ### Lemmas about the schedule store -/

/-- Inserting a schedule row touches no other table. -/
theorem save_daily_schedule_tables (db : DB) (uid : ℤ) (d : String) (g : ℤ)
    (ts : List String) :
    (save_daily_schedule db uid d g ts).users = db.users ∧
      (save_daily_schedule db uid d g ts).sent_reminders = db.sent_reminders ∧
      (save_daily_schedule db uid d g ts).water_logs = db.water_logs ∧
      (save_daily_schedule db uid d g ts).daily_schedule =
        db.daily_schedule ++ [⟨uid, d, g, ts⟩] :=
  ⟨rfl, rfl, rfl, rfl⟩

/-- A pre-existing schedule row shadows a newly inserted one for the
same key: `fetchone` still returns the old row. -/
theorem get_after_save_existing {db : DB} {uid : ℤ} {d : String} (g : ℤ)
    (ts : List String) {r : SchedRow}
    (h : get_daily_schedule db uid d = some r) :
    get_daily_schedule (save_daily_schedule db uid d g ts) uid d = some r := by
  unfold get_daily_schedule save_daily_schedule at *
  simp only [List.find?_append, h]
  rfl

/-- When no row exists for the key, the inserted row becomes visible. -/
theorem get_after_save_new {db : DB} {uid : ℤ} {d : String} (g : ℤ)
    (ts : List String) (h : get_daily_schedule db uid d = none) :
    get_daily_schedule (save_daily_schedule db uid d g ts) uid d =
      some ⟨uid, d, g, ts⟩ := by
  unfold get_daily_schedule save_daily_schedule at *
  simp [List.find?_append, h]

/-! ### Lemmas about the dispatcher -/

/-- Generation phase when a schedule row already exists. -/
theorem gen_phase_existing {env : Env} {db : DB} {u : UserRow} {lc : LocalClock}
    {sch : SchedRow} (h : get_daily_schedule db u.user_id lc.dateStr = some sch) :
    gen_phase env db u lc = (db, some sch) := by
  unfold gen_phase
  rw [h]

/-- Generation phase when no row exists and the tick is outside the
five-minute generation window after `notification_start`. -/
theorem gen_phase_skip {env : Env} {db : DB} {u : UserRow} {lc : LocalClock}
    (h : get_daily_schedule db u.user_id lc.dateStr = none)
    (hc : ¬(0 ≤ lc.hour * 60 + lc.minute - hmToMinutes u.notification_start ∧
      lc.hour * 60 + lc.minute - hmToMinutes u.notification_start ≤ 5)) :
    gen_phase env db u lc = (db, none) := by
  unfold gen_phase
  rw [h]
  simp only [hc, if_false]

/-- Generation phase when no row exists and the tick is inside the
five-minute generation window: the goal is computed, the times are
generated and the row is inserted. -/
theorem gen_phase_generate {env : Env} {db : DB} {u : UserRow} {lc : LocalClock}
    (h : get_daily_schedule db u.user_id lc.dateStr = none)
    (hc : 0 ≤ lc.hour * 60 + lc.minute - hmToMinutes u.notification_start ∧
      lc.hour * 60 + lc.minute - hmToMinutes u.notification_start ≤ 5) :
    gen_phase env db u lc =
      (save_daily_schedule db u.user_id lc.dateStr
          (calculate_norm u.weight u.gender u.activity_level (lookup_temp env u))
          (generate_reminder_schedule u.notification_start u.notification_end
            (max 1 ((calculate_norm u.weight u.gender u.activity_level
              (lookup_temp env u) + 249) / 250))),
        some ⟨u.user_id, lc.dateStr,
          calculate_norm u.weight u.gender u.activity_level (lookup_temp env u),
          generate_reminder_schedule u.notification_start u.notification_end
            (max 1 ((calculate_norm u.weight u.gender u.activity_level
              (lookup_temp env u) + 249) / 250))⟩) := by
  unfold gen_phase
  rw [h]
  simp only [hc, and_self, if_true]

/-- The generation phase never touches the `sent_reminders` table. -/
theorem gen_phase_sent (env : Env) (db : DB) (u : UserRow) (lc : LocalClock) :
    (gen_phase env db u lc).1.sent_reminders = db.sent_reminders := by
  unfold gen_phase
  cases h : get_daily_schedule db u.user_id lc.dateStr
  · dsimp only
    split_ifs <;> rfl
  · rfl

/-- When every send succeeds, the send phase delivers exactly the due
times, in schedule order, each classified by its position. -/
theorem send_phase_eq_filter {env : Env} {u : UserRow} (nowMin : ℤ) (sch : SchedRow)
    (hsend : env.sendOk u.user_id = true) :
    send_phase env u nowMin sch =
      (sch.reminder_times.filter fun t =>
          decide (0 ≤ nowMin - hmToMinutes t ∧ nowMin - hmToMinutes t ≤ 5)).map
        (fun t => ⟨u.user_id, t, classify sch.reminder_times t⟩) := by
  unfold send_phase send_reminder
  rw [hsend]
  simp only [if_true]
  exact filterMap_if_filter
    (fun t => 0 ≤ nowMin - hmToMinutes t ∧ nowMin - hmToMinutes t ≤ 5)
    (fun t => (⟨u.user_id, t, classify sch.reminder_times t⟩ : Delivery))
    sch.reminder_times

/-- The per-user body raises exactly the timezone lookup failure. -/
theorem process_user_clock_none {env : Env} {db : DB} {u : UserRow}
    (h : env.clock u.timezone = none) :
    process_user env db u = .error u.timezone := by
  unfold process_user
  rw [h]

/-- The per-user body with an existing schedule: the database is
untouched and the send phase of that schedule runs. -/
theorem process_user_existing {env : Env} {db : DB} {u : UserRow} {lc : LocalClock}
    {sch : SchedRow} (hcl : env.clock u.timezone = some lc)
    (hs : get_daily_schedule db u.user_id lc.dateStr = some sch) :
    process_user env db u =
      .ok (db, send_phase env u (lc.hour * 60 + lc.minute) sch) := by
  unfold process_user
  rw [hcl]
  simp only [gen_phase_existing hs]

/-- The per-user body with no schedule, outside the generation window:
nothing happens. -/
theorem process_user_skip {env : Env} {db : DB} {u : UserRow} {lc : LocalClock}
    (hcl : env.clock u.timezone = some lc)
    (hs : get_daily_schedule db u.user_id lc.dateStr = none)
    (hc : ¬(0 ≤ lc.hour * 60 + lc.minute - hmToMinutes u.notification_start ∧
      lc.hour * 60 + lc.minute - hmToMinutes u.notification_start ≤ 5)) :
    process_user env db u = .ok (db, []) := by
  unfold process_user
  rw [hcl]
  simp only [gen_phase_skip hs hc]

/-- The per-user body with no schedule, inside the generation window:
the schedule is generated, inserted, and immediately sent from. -/
theorem process_user_generate {env : Env} {db : DB} {u : UserRow} {lc : LocalClock}
    (hcl : env.clock u.timezone = some lc)
    (hs : get_daily_schedule db u.user_id lc.dateStr = none)
    (hc : 0 ≤ lc.hour * 60 + lc.minute - hmToMinutes u.notification_start ∧
      lc.hour * 60 + lc.minute - hmToMinutes u.notification_start ≤ 5) :
    process_user env db u =
      .ok (save_daily_schedule db u.user_id lc.dateStr
          (calculate_norm u.weight u.gender u.activity_level (lookup_temp env u))
          (generate_reminder_schedule u.notification_start u.notification_end
            (max 1 ((calculate_norm u.weight u.gender u.activity_level
              (lookup_temp env u) + 249) / 250))),
        send_phase env u (lc.hour * 60 + lc.minute)
          ⟨u.user_id, lc.dateStr,
            calculate_norm u.weight u.gender u.activity_level (lookup_temp env u),
            generate_reminder_schedule u.notification_start u.notification_end
              (max 1 ((calculate_norm u.weight u.gender u.activity_level
                (lookup_temp env u) + 249) / 250))⟩) := by
  unfold process_user
  rw [hcl]
  simp only [gen_phase_generate hs hc]

/-- A valid timezone lookup means the per-user body cannot raise. -/
theorem process_user_ok_of_isSome {env : Env} {db : DB} {u : UserRow}
    (h : (env.clock u.timezone).isSome) :
    ∃ db' ds, process_user env db u = .ok (db', ds) := by
  obtain ⟨lc, hcl⟩ := Option.isSome_iff_exists.mp h
  unfold process_user
  rw [hcl]
  cases hp : (gen_phase env db u lc).2 <;> simp [hp]

/-- The per-user body never touches the `sent_reminders` table. -/
theorem process_user_sent {env : Env} {db : DB} {u : UserRow} {db' : DB}
    {ds : List Delivery} (h : process_user env db u = .ok (db', ds)) :
    db'.sent_reminders = db.sent_reminders := by
  unfold process_user at h
  cases hcl : env.clock u.timezone with
  | none => rw [hcl] at h; cases h
  | some lc =>
    rw [hcl] at h
    dsimp only at h
    have hsent := gen_phase_sent env db u lc
    cases hp : (gen_phase env db u lc).2 with
    | none => rw [hp] at h; cases h; exact hsent
    | some sch => rw [hp] at h; cases h; exact hsent

/-- The loop leaves `sent_reminders` unchanged. -/
theorem checkLoop_sent (env : Env) :
    ∀ (us : List UserRow) (db : DB) (acc : List Delivery),
      (checkLoop env us db acc).db.sent_reminders = db.sent_reminders
  | [], _, _ => rfl
  | u :: us, db, acc => by
    unfold checkLoop
    cases h : process_user env db u with
    | error e => rfl
    | ok p =>
      obtain ⟨db', ds⟩ := p
      rw [checkLoop_sent env us db' (acc ++ ds)]
      exact process_user_sent h

/-- One unrolling of the loop. -/
theorem checkLoop_cons (env : Env) (u : UserRow) (us : List UserRow) (db : DB)
    (acc : List Delivery) :
    checkLoop env (u :: us) db acc =
      match process_user env db u with
      | .error e => ⟨db, acc, some e⟩
      | .ok (db', ds) => checkLoop env us db' (acc ++ ds) := rfl

/-- A failing head user aborts the loop at once. -/
theorem checkLoop_error_cons {env : Env} {u : UserRow} {us : List UserRow}
    {db : DB} {acc : List Delivery} {e : String}
    (h : process_user env db u = .error e) :
    checkLoop env (u :: us) db acc = ⟨db, acc, some e⟩ := by
  rw [checkLoop_cons, h]

/-- A succeeding head user hands control to the rest of the loop. -/
theorem checkLoop_ok_cons {env : Env} {u : UserRow} {us : List UserRow}
    {db db' : DB} {acc : List Delivery} {ds : List Delivery}
    (h : process_user env db u = .ok (db', ds)) :
    checkLoop env (u :: us) db acc = checkLoop env us db' (acc ++ ds) := by
  rw [checkLoop_cons, h]

/-- If every listed user's timezone resolves, the loop finishes without
an error. -/
theorem checkLoop_no_error (env : Env) :
    ∀ (us : List UserRow) (db : DB) (acc : List Delivery),
      (∀ u ∈ us, (env.clock u.timezone).isSome) →
      (checkLoop env us db acc).error = none
  | [], _, _, _ => rfl
  | u :: us, db, acc, h => by
    obtain ⟨db', ds, hok⟩ := process_user_ok_of_isSome
      (h u (List.mem_cons_self u us))
    rw [checkLoop_ok_cons hok]
    exact checkLoop_no_error env us db' (acc ++ ds)
      (fun v hv => h v (List.mem_cons_of_mem u hv))

/-- The generator loop in closed form. -/
theorem scheduleMinutes_eq (s e n : ℤ) :
    scheduleMinutes s e n =
      (List.range n.toNat).map
        (fun i : ℕ => (s + Frac.pyRound ⟨(i : ℤ) * (e - s), n - 1⟩) % 1440) := by
  unfold scheduleMinutes Frac.div Frac.mul Frac.ofInt
  simp [mul_one, one_mul]

/-- Claim C2: for every valid same-day window (`start < end`, both
canonical `"HH:MM"`) and every `glassCount ≥ 2`, the generator returns
exactly `glassCount` entries, the first equal to the start string, the
last equal to the end string, non-decreasing as times of day; for
`glassCount ≤ 1` it returns the single-element list holding the start
string. -/
theorem claim_C2 (ns ne : String) (n : ℤ)
    (hs : canonicalHM ns) (he : canonicalHM ne)
    (hlt : hmToMinutes ns < hmToMinutes ne) :
    (2 ≤ n →
      (generate_reminder_schedule ns ne n).length = n.toNat ∧
      (generate_reminder_schedule ns ne n).head? = some ns ∧
      (generate_reminder_schedule ns ne n).getLast? = some ne ∧
      List.Chain' hmLe (generate_reminder_schedule ns ne n)) ∧
    (n ≤ 1 → generate_reminder_schedule ns ne n = [ns]) := by
  obtain ⟨hs0, hs1440, hsfmt⟩ := hs
  obtain ⟨he0, he1440, hefmt⟩ := he
  constructor
  · intro h2
    set s := hmToMinutes ns with hsdef
    set e := hmToMinutes ne with hedef
    have hne : ¬ n ≤ 1 := by omega
    have hnotle : ¬ e ≤ s := by omega
    have hgen : generate_reminder_schedule ns ne n =
        (scheduleMinutes s e n).map minutesToHM := by
      unfold generate_reminder_schedule
      rw [if_neg hne]
      dsimp only
      rw [if_neg hnotle]
    rw [hgen, scheduleMinutes_eq, List.map_map]
    set N := n.toNat with hN
    have hN2 : 2 ≤ N := by omega
    obtain ⟨M, hM⟩ : ∃ M, N = M + 1 := ⟨N - 1, by omega⟩
    have hd : 0 < n - 1 := by omega
    have hub : ∀ i : ℕ, (i : ℤ) ≤ n - 1 →
        Frac.pyRound ⟨(i : ℤ) * (e - s), n - 1⟩ ≤ e - s := by
      intro i hi
      have h1 : (i : ℤ) * (e - s) ≤ (n - 1) * (e - s) :=
        mul_le_mul_of_nonneg_right hi (by omega)
      have h2 := pyRound_mono hd h1
      rw [show (n - 1) * (e - s) = (e - s) * (n - 1) from mul_comm _ _] at h2
      rwa [pyRound_mul_den hd] at h2
    have hlb : ∀ i : ℕ, 0 ≤ Frac.pyRound ⟨(i : ℤ) * (e - s), n - 1⟩ := fun i =>
      pyRound_nonneg hd (mul_nonneg (Int.natCast_nonneg i) (by omega))
    have hmod : ∀ i : ℕ, (i : ℤ) ≤ n - 1 →
        (s + Frac.pyRound ⟨(i : ℤ) * (e - s), n - 1⟩) % 1440 =
          s + Frac.pyRound ⟨(i : ℤ) * (e - s), n - 1⟩ := by
      intro i hi
      have h1 := hlb i
      have h2 := hub i hi
      exact Int.emod_eq_of_lt (by omega) (by omega)
    refine ⟨by simp, ?_, ?_, ?_⟩
    · have hhead : (List.range N).head? = some 0 := by
        rw [hM, List.range_succ_eq_map]
        rfl
      rw [List.head?_map, hhead, Option.map_some']
      have hf0 : (s + Frac.pyRound ⟨((0 : ℕ) : ℤ) * (e - s), n - 1⟩) % 1440 = s := by
        rw [show (((0 : ℕ) : ℤ) * (e - s)) = 0 * (n - 1) from by push_cast; ring,
          pyRound_mul_den hd]
        rw [add_zero]
        exact Int.emod_eq_of_lt hs0 hs1440
      simp only [Function.comp_apply, hf0, hsfmt]
    · have hlast : (List.range N).getLast? = some M := by
        rw [hM, List.range_succ]
        exact List.getLast?_concat _
      rw [List.getLast?_map, hlast, Option.map_some']
      have hMcast : ((M : ℕ) : ℤ) = n - 1 := by omega
      have hfM : (s + Frac.pyRound ⟨((M : ℕ) : ℤ) * (e - s), n - 1⟩) % 1440 = e := by
        rw [hMcast, show (n - 1) * (e - s) = (e - s) * (n - 1) from mul_comm _ _,
          pyRound_mul_den hd]
        rw [show s + (e - s) = e from by ring]
        exact Int.emod_eq_of_lt he0 he1440
      simp only [Function.comp_apply, hfM, hefmt]
    · rw [List.chain'_map, hM, List.chain'_range_succ]
      intro j hj
      simp only [Function.comp_apply, Nat.succ_eq_add_one]
      have hj1 : ((j : ℕ) : ℤ) ≤ n - 1 := by omega
      have hj2 : (((j + 1 : ℕ)) : ℤ) ≤ n - 1 := by omega
      show hmLe _ _
      unfold hmLe
      have hb1 := hlb j
      have hb2 := hub j hj1
      have hb1' := hlb (j + 1)
      have hb2' := hub (j + 1) hj2
      rw [hm_roundtrip (Int.emod_nonneg _ (by norm_num))
          (Int.emod_lt_of_pos _ (show (0:ℤ) < 1440 by norm_num)),
        hm_roundtrip (Int.emod_nonneg _ (by norm_num))
          (Int.emod_lt_of_pos _ (show (0:ℤ) < 1440 by norm_num))]
      rw [hmod j hj1, hmod (j + 1) hj2]
      have hmono : Frac.pyRound ⟨((j : ℕ) : ℤ) * (e - s), n - 1⟩ ≤
          Frac.pyRound ⟨(((j + 1 : ℕ)) : ℤ) * (e - s), n - 1⟩ := by
        apply pyRound_mono hd
        apply mul_le_mul_of_nonneg_right (by push_cast; omega) (by omega)
      omega
  · intro h1
    unfold generate_reminder_schedule
    rw [if_pos h1]

/-- Claim C2 witness: the window 08:00-22:00 with 11 glasses
(Scenario C of the specification). -/
theorem claim_C2_witness :
    (generate_reminder_schedule "08:00" "22:00" 11).length = (11 : ℤ).toNat ∧
      (generate_reminder_schedule "08:00" "22:00" 11).head? = some "08:00" ∧
      (generate_reminder_schedule "08:00" "22:00" 11).getLast? = some "22:00" ∧
      List.Chain' hmLe (generate_reminder_schedule "08:00" "22:00" 11) :=
  (claim_C2 "08:00" "22:00" 11 (by decide) (by decide) (by decide)).1 (by decide)

/-- Claim C10: for a window with `end ≤ start` and `glassCount ≥ 2` the
generator does not fail: it computes the spacing on a timeline ending at
`end + 1440` minutes and reduces each emitted time modulo 1440, so the
list wraps past midnight; concretely, window 22:00-06:00 with 3 glasses
yields `["22:00", "02:00", "06:00"]`, whose entries are not
non-decreasing as minutes of day. -/
theorem claim_C10 :
    (∀ (ns ne : String) (n : ℤ), hmToMinutes ne ≤ hmToMinutes ns → 2 ≤ n →
      generate_reminder_schedule ns ne n =
        (scheduleMinutes (hmToMinutes ns) (hmToMinutes ne + 1440) n).map minutesToHM) ∧
    generate_reminder_schedule "22:00" "06:00" 3 = ["22:00", "02:00", "06:00"] ∧
    ¬ List.Chain' hmLe ["22:00", "02:00", "06:00"] := by
  refine ⟨?_, by decide, ?_⟩
  · intro ns ne n hle hn
    unfold generate_reminder_schedule
    rw [if_neg (by omega)]
    dsimp only
    rw [if_pos hle]
  · intro h
    have h1 := (List.chain'_cons.mp h).1
    revert h1
    decide

/-- Claim C10 witness: the general wraparound equation applied to the
22:00-06:00 window. -/
theorem claim_C10_witness :
    generate_reminder_schedule "22:00" "06:00" 3 =
      (scheduleMinutes (hmToMinutes "22:00") (hmToMinutes "06:00" + 1440) 3).map
        minutesToHM :=
  claim_C10.1 "22:00" "06:00" 3 (by decide) (by decide)

/-- Claim C3 (code evaluation): the goal is always a multiple of 250 ml,
but the scenario values of the claim fail for the activity label
`"medium"` that this codebase's handlers store: the calculator's map is
keyed by the Russian labels, so a medium-activity profile gets
coefficient 1.0 and the goals 2500 ml (no temperature) and 2750 ml
(31°C) instead of the claimed 2750/3000, which only arise for the
Russian label `"средняя"`. -/
theorem claim_C3 :
    (∀ (w : ℤ) (g a : String) (t : Option Frac),
      (250 : ℤ) ∣ calculate_norm w g a t) ∧
    calculate_norm 70 "male" "medium" none = 2500 ∧
    calculate_norm 70 "male" "средняя" none = 2750 ∧
    calculate_norm 70 "male" "medium" (some (Frac.ofInt 31)) = 2750 ∧
    calculate_norm 70 "male" "средняя" (some (Frac.ofInt 31)) = 3000 := by
  refine ⟨?_, by decide, by decide, by decide, by decide⟩
  intro w g a t
  unfold calculate_norm
  exact dvd_mul_left 250 _

/-- Claim C6 counterexample: the time localizer of
`utils/time_utils.py` — the one the reminder job imports — raises
(returns `none`) on a timezone name absent from the zone table, instead
of substituting UTC. -/
theorem claim_C6_counterexample :
    get_user_local_time_utils (fun s => if s = "UTC" then some 0 else none) 0
      "Mars/Olympus" = none := by
  decide

/-- Claim C6 (amended): only the monolith `services.py` localizer is
total — it substitutes the UTC clock when the user is missing, the
timezone field is empty, or the zone lookup fails, and applies the
offset otherwise; the `utils/time_utils.py` localizer used by the
reminder job propagates the failure on an unrecognized name. -/
theorem claim_C6 :
    (∀ (zones : String → Option ℤ) (utcNow : ℤ) (db : DB) (uid : ℤ),
      (get_user db uid = none →
        get_user_local_time_services zones utcNow db uid = utcNow) ∧
      (∀ u, get_user db uid = some u → u.timezone = "" →
        get_user_local_time_services zones utcNow db uid = utcNow) ∧
      (∀ u, get_user db uid = some u → zones u.timezone = none →
        get_user_local_time_services zones utcNow db uid = utcNow) ∧
      (∀ u off, get_user db uid = some u → u.timezone ≠ "" →
        zones u.timezone = some off →
        get_user_local_time_services zones utcNow db uid = utcNow + off)) ∧
    (∀ (zones : String → Option ℤ) (utcNow : ℤ) (tz : String),
      zones tz = none → get_user_local_time_utils zones utcNow tz = none) := by
  constructor
  · intro zones utcNow db uid
    refine ⟨?_, ?_, ?_, ?_⟩
    · intro h
      unfold get_user_local_time_services
      rw [h]
    · intro u hu he
      unfold get_user_local_time_services
      rw [hu]
      simp [he]
    · intro u hu hz
      unfold get_user_local_time_services
      rw [hu]
      dsimp only
      split_ifs with h
      · rfl
      · rw [hz]
    · intro u off hu hne hz
      unfold get_user_local_time_services
      rw [hu]
      dsimp only
      rw [if_neg hne, hz]
  · intro zones utcNow tz h
    unfold get_user_local_time_utils
    rw [h]
    rfl

/-- Claim C6 witness: a user with an unknown stored timezone gets the
UTC clock from the `services.py` localizer, while the
`utils/time_utils.py` localizer fails on the same name. -/
theorem claim_C6_witness :
    get_user_local_time_services (fun s => if s = "UTC" then some 0 else none)
        100 dbBadFirst 2 = 100 ∧
      get_user_local_time_utils (fun s => if s = "UTC" then some 0 else none)
        100 "Mars/Olympus" = none :=
  ⟨(claim_C6.1 (fun s => if s = "UTC" then some 0 else none) 100 dbBadFirst 2).2.2.1
      badTzUser (by decide) (by decide),
    claim_C6.2 (fun s => if s = "UTC" then some 0 else none) 100 "Mars/Olympus"
      (by decide)⟩

/-- Claim C7 counterexample: saving a second schedule for the same
(user, date) key leaves two rows for that key, and `fetchone` still
returns the first (old) row — nothing is replaced. -/
theorem claim_C7_counterexample :
    ((save_daily_schedule (save_daily_schedule emptyDB 1 "2024-06-01" 500 ["10:00"])
        1 "2024-06-01" 600 ["11:00"]).daily_schedule.filter
      (fun r => r.user_id == 1 && r.date_local == "2024-06-01")).length = 2 ∧
    get_daily_schedule
        (save_daily_schedule (save_daily_schedule emptyDB 1 "2024-06-01" 500 ["10:00"])
          1 "2024-06-01" 600 ["11:00"]) 1 "2024-06-01" =
      some ⟨1, "2024-06-01", 500, ["10:00"]⟩ := by
  decide

/-- Claim C7 (amended): `save_daily_schedule` is a plain `INSERT`: it
appends a row, and a pre-existing row for the same key keeps shadowing
the new one in `get_daily_schedule`. -/
theorem claim_C7 :
    (∀ (db : DB) (uid : ℤ) (d : String) (g : ℤ) (ts : List String),
      (save_daily_schedule db uid d g ts).daily_schedule =
        db.daily_schedule ++ [⟨uid, d, g, ts⟩]) ∧
    (∀ (db : DB) (uid : ℤ) (d : String) (g : ℤ) (ts : List String) (r : SchedRow),
      get_daily_schedule db uid d = some r →
      get_daily_schedule (save_daily_schedule db uid d g ts) uid d = some r) :=
  ⟨fun _ _ _ _ _ => rfl, fun _ _ _ g ts _ h => get_after_save_existing g ts h⟩

/-- Claim C7 witness: re-saving over `dbWithSched` leaves the original
row visible. -/
theorem claim_C7_witness :
    get_daily_schedule (save_daily_schedule dbWithSched 1 "2024-06-01" 600 ["11:00"])
      1 "2024-06-01" = some exSched :=
  claim_C7.2 dbWithSched 1 "2024-06-01" 600 ["11:00"] exSched (by decide)

/-- Claim C1 counterexample: the dispatcher records no per-event sent
state, so the reminder scheduled at 10:00 — due in both a 10:00 tick
and a 10:05 tick (`0 ≤ diff ≤ 5` in each) — is delivered by both ticks:
two deliveries, not exactly one. -/
theorem claim_C1_counterexample :
    (check_and_send_reminders (exEnv 10 0 "2024-06-01") dbWithSched).deliveries =
      [⟨1, "10:00", MsgKind.morning⟩] ∧
    (check_and_send_reminders (exEnv 10 5 "2024-06-01")
        (check_and_send_reminders (exEnv 10 0 "2024-06-01") dbWithSched).db).deliveries =
      [⟨1, "10:00", MsgKind.morning⟩] := by
  decide

/-- Claim C1 (amended): the tick loop never writes any sent state (the
`sent_reminders` table is untouched by `check_and_send_reminders`, so
each tick within the five-minute window re-delivers), and the only
writer, `mark_reminder_sent` — which the dispatcher never calls — only
inserts: a recorded sent marker is never removed. -/
theorem claim_C1 :
    (∀ (env : Env) (db : DB),
      (check_and_send_reminders env db).db.sent_reminders = db.sent_reminders) ∧
    (∀ (env : Env) (db : DB) (uid : ℤ) (ty : String) (db' : DB),
      mark_reminder_sent env db uid ty = .ok db' →
      ∀ r ∈ db.sent_reminders, r ∈ db'.sent_reminders) := by
  constructor
  · intro env db
    exact checkLoop_sent env _ db []
  · intro env db uid ty db' h r hr
    unfold mark_reminder_sent at h
    cases hu : get_user db uid with
    | none => rw [hu] at h; cases h; exact hr
    | some u =>
      rw [hu] at h
      dsimp only at h
      cases hcl : env.clock u.timezone with
      | none => rw [hcl] at h; cases h
      | some lc =>
        rw [hcl] at h
        cases h
        exact List.mem_append_left _ hr

/-- Claim C1 witness: a 10:00 tick leaves `sent_reminders` unchanged,
and marking an evening reminder keeps the previously recorded row. -/
theorem claim_C1_witness :
    (check_and_send_reminders (exEnv 10 0 "2024-06-01") dbWithSched).db.sent_reminders =
        dbWithSched.sent_reminders ∧
      ((1 : ℤ), "2024-05-31", "morning") ∈
        (⟨[exUser], [],
          [((1 : ℤ), "2024-05-31", "morning"), ((1 : ℤ), "2024-06-01", "evening")],
          []⟩ : DB).sent_reminders :=
  ⟨claim_C1.1 (exEnv 10 0 "2024-06-01") dbWithSched,
    claim_C1.2 (exEnv 10 0 "2024-06-01") dbSent 1 "evening" _ rfl _ (by decide)⟩

/-- Claim C4 counterexample: at a 10:00 tick, the event scheduled at
10:01 lies inside the claimed symmetric window `[now - 5, now + 5]`,
yet the dispatcher does not treat it as due: nothing is delivered. -/
theorem claim_C4_counterexample :
    (check_and_send_reminders (exEnv 10 0 "2024-06-01") dbFuture).deliveries = [] ∧
      (check_and_send_reminders (exEnv 10 0 "2024-06-01") dbFuture).error = none := by
  decide

/-- Claim C4 (amended): with an existing schedule, the set of events the
dispatcher delivers is exactly the scheduled times in the one-sided
lookback window `0 ≤ now - t ≤ 5` — a time after `now` is not due, and
no sent flag is consulted (the database is passed through unchanged). -/
theorem claim_C4 (env : Env) (db : DB) (u : UserRow) (lc : LocalClock)
    (sch : SchedRow) (hcl : env.clock u.timezone = some lc)
    (hs : get_daily_schedule db u.user_id lc.dateStr = some sch)
    (hsend : env.sendOk u.user_id = true) :
    process_user env db u = .ok (db,
      (sch.reminder_times.filter fun t =>
        decide (0 ≤ lc.hour * 60 + lc.minute - hmToMinutes t ∧
          lc.hour * 60 + lc.minute - hmToMinutes t ≤ 5)).map
        (fun t => ⟨u.user_id, t, classify sch.reminder_times t⟩)) := by
  rw [process_user_existing hcl hs, send_phase_eq_filter _ _ hsend]

/-- Claim C4 witness: the 10:00 tick over `dbWithSched` delivers
exactly the 10:00 event. -/
theorem claim_C4_witness :
    process_user (exEnv 10 0 "2024-06-01") dbWithSched exUser =
      .ok (dbWithSched, [⟨1, "10:00", MsgKind.morning⟩]) :=
  (claim_C4 (exEnv 10 0 "2024-06-01") dbWithSched exUser ⟨10, 0, "2024-06-01"⟩
      exSched (by decide) (by decide) (by decide)).trans (by rfl)

/-- Claim C5 counterexample: the first listed user has a timezone the
zone table does not know; the resulting exception aborts the whole
tick, so the second user's due 10:00 reminder is never delivered —
refuting that every remaining user is still processed. -/
theorem claim_C5_counterexample :
    check_and_send_reminders (exEnv 10 0 "2024-06-01") dbBadFirst =
      ⟨dbBadFirst, [], some "Mars/Olympus"⟩ := by
  decide

/-- Claim C5 (amended): there is no per-user exception handler: a
timezone-lookup failure for the first enabled user aborts the batch at
once, with no deliveries and the remaining users unprocessed; only when
every enabled user's timezone resolves does the loop run to completion
(send failures themselves are swallowed and never abort it). -/
theorem claim_C5 :
    (∀ (env : Env) (db : DB) (u : UserRow) (us : List UserRow),
      db.users = u :: us → u.notifications_enabled = true →
      env.clock u.timezone = none →
      check_and_send_reminders env db = ⟨db, [], some u.timezone⟩) ∧
    (∀ (env : Env) (db : DB),
      (∀ u ∈ db.users, u.notifications_enabled = true →
        (env.clock u.timezone).isSome) →
      (check_and_send_reminders env db).error = none) := by
  constructor
  · intro env db u us hu hen hcl
    unfold check_and_send_reminders
    rw [hu, List.filter_cons_of_pos hen]
    exact checkLoop_error_cons (process_user_clock_none hcl)
  · intro env db h
    apply checkLoop_no_error
    intro u hu
    have hm := List.mem_filter.mp hu
    exact h u hm.1 hm.2

/-- Claim C5 witness: the aborted batch of `dbBadFirst` via the general
abort law, and the error-free run over `dbWithSched`, whose only user's
timezone resolves. -/
theorem claim_C5_witness :
    check_and_send_reminders (exEnv 10 0 "2024-06-01") dbBadFirst =
        ⟨dbBadFirst, [], some badTzUser.timezone⟩ ∧
      (check_and_send_reminders (exEnv 10 0 "2024-06-01") dbWithSched).error = none :=
  ⟨claim_C5.1 (exEnv 10 0 "2024-06-01") dbBadFirst badTzUser [exUser]
      (by decide) (by decide) (by decide),
    claim_C5.2 (exEnv 10 0 "2024-06-01") dbWithSched (by decide)⟩

/-- Claim C8 counterexample: the user's goal is 500 ml and 600 ml are
already logged (remaining ≤ 0), yet the due intermediate 12:00 reminder
is delivered — the dispatcher performs no goal-met suppression. -/
theorem claim_C8_counterexample :
    (check_and_send_reminders (exEnv 12 0 "2024-06-01") dbGoalMet).deliveries =
      [⟨1, "12:00", MsgKind.plain⟩] := by
  decide

/-- Claim C8 (amended): every due event of an existing schedule is
delivered (when the send succeeds) whatever the content of the intake
ledger: the statement carries no hypothesis on `db.water_logs`, and the
delivered kind is the positional classification — intermediate events
are never suppressed, and first/last events are likewise always sent. -/
theorem claim_C8 (env : Env) (db : DB) (u : UserRow) (lc : LocalClock)
    (sch : SchedRow) (t : String) (hcl : env.clock u.timezone = some lc)
    (hs : get_daily_schedule db u.user_id lc.dateStr = some sch)
    (hsend : env.sendOk u.user_id = true) (ht : t ∈ sch.reminder_times)
    (hdue : 0 ≤ lc.hour * 60 + lc.minute - hmToMinutes t ∧
      lc.hour * 60 + lc.minute - hmToMinutes t ≤ 5) :
    ∃ ds, process_user env db u = .ok (db, ds) ∧
      (⟨u.user_id, t, classify sch.reminder_times t⟩ : Delivery) ∈ ds := by
  refine ⟨_, process_user_existing hcl hs, ?_⟩
  rw [send_phase_eq_filter _ _ hsend]
  exact List.mem_map_of_mem _ (List.mem_filter.mpr ⟨ht, decide_eq_true hdue⟩)

/-- Claim C8 witness: the goal-met database of the counterexample,
via the general no-suppression law. -/
theorem claim_C8_witness :
    ∃ ds, process_user (exEnv 12 0 "2024-06-01") dbGoalMet exUser =
        .ok (dbGoalMet, ds) ∧
      (⟨1, "12:00", classify ["08:00", "12:00", "20:00"] "12:00"⟩ : Delivery) ∈ ds :=
  claim_C8 (exEnv 12 0 "2024-06-01") dbGoalMet exUser ⟨12, 0, "2024-06-01"⟩
    ⟨1, "2024-06-01", 500, ["08:00", "12:00", "20:00"]⟩ "12:00"
    (by decide) (by decide) (by decide) (by decide) (by decide)

/-- Claim C9 counterexample: the tick observes 08:06, six minutes after
the 08:00 window start, with no schedule for the day: nothing is
generated or persisted — the schedule is not "generated late". -/
theorem claim_C9_counterexample :
    check_and_send_reminders (exEnv 8 6 "2024-06-01") dbNoSched =
      ⟨dbNoSched, [], none⟩ := by
  decide

/-- Claim C9 (amended): with no schedule for the day, generation
happens exactly when the local time is 0-5 minutes at-or-after
`notification_start`: outside that window the tick does nothing for the
user, and inside it the schedule is computed, inserted, and becomes
visible for the day. -/
theorem claim_C9 (env : Env) (db : DB) (u : UserRow) (lc : LocalClock)
    (hcl : env.clock u.timezone = some lc)
    (hs : get_daily_schedule db u.user_id lc.dateStr = none) :
    (¬(0 ≤ lc.hour * 60 + lc.minute - hmToMinutes u.notification_start ∧
        lc.hour * 60 + lc.minute - hmToMinutes u.notification_start ≤ 5) →
      process_user env db u = .ok (db, [])) ∧
    ((0 ≤ lc.hour * 60 + lc.minute - hmToMinutes u.notification_start ∧
        lc.hour * 60 + lc.minute - hmToMinutes u.notification_start ≤ 5) →
      ∃ ds, process_user env db u =
        .ok (save_daily_schedule db u.user_id lc.dateStr
          (calculate_norm u.weight u.gender u.activity_level (lookup_temp env u))
          (generate_reminder_schedule u.notification_start u.notification_end
            (max 1 ((calculate_norm u.weight u.gender u.activity_level
              (lookup_temp env u) + 249) / 250))), ds) ∧
        get_daily_schedule
          (save_daily_schedule db u.user_id lc.dateStr
            (calculate_norm u.weight u.gender u.activity_level (lookup_temp env u))
            (generate_reminder_schedule u.notification_start u.notification_end
              (max 1 ((calculate_norm u.weight u.gender u.activity_level
                (lookup_temp env u) + 249) / 250))))
          u.user_id lc.dateStr =
        some ⟨u.user_id, lc.dateStr,
          calculate_norm u.weight u.gender u.activity_level (lookup_temp env u),
          generate_reminder_schedule u.notification_start u.notification_end
            (max 1 ((calculate_norm u.weight u.gender u.activity_level
              (lookup_temp env u) + 249) / 250))⟩) := by
  constructor
  · intro hc
    exact process_user_skip hcl hs hc
  · intro hc
    exact ⟨_, process_user_generate hcl hs hc, get_after_save_new _ _ hs⟩

/-- Claim C9 witness: a 08:06 tick generates nothing; a 08:03 tick
generates and persists the schedule. -/
theorem claim_C9_witness :
    (process_user (exEnv 8 6 "2024-06-01") dbNoSched exUser = .ok (dbNoSched, [])) ∧
      ∃ ds, process_user (exEnv 8 3 "2024-06-01") dbNoSched exUser =
        .ok (save_daily_schedule dbNoSched exUser.user_id "2024-06-01"
          (calculate_norm exUser.weight exUser.gender exUser.activity_level
            (lookup_temp (exEnv 8 3 "2024-06-01") exUser))
          (generate_reminder_schedule exUser.notification_start
            exUser.notification_end
            (max 1 ((calculate_norm exUser.weight exUser.gender
              exUser.activity_level
              (lookup_temp (exEnv 8 3 "2024-06-01") exUser) + 249) / 250))), ds) ∧
        get_daily_schedule
          (save_daily_schedule dbNoSched exUser.user_id "2024-06-01"
            (calculate_norm exUser.weight exUser.gender exUser.activity_level
              (lookup_temp (exEnv 8 3 "2024-06-01") exUser))
            (generate_reminder_schedule exUser.notification_start
              exUser.notification_end
              (max 1 ((calculate_norm exUser.weight exUser.gender
                exUser.activity_level
                (lookup_temp (exEnv 8 3 "2024-06-01") exUser) + 249) / 250))))
          exUser.user_id "2024-06-01" =
        some ⟨exUser.user_id, "2024-06-01",
          calculate_norm exUser.weight exUser.gender exUser.activity_level
            (lookup_temp (exEnv 8 3 "2024-06-01") exUser),
          generate_reminder_schedule exUser.notification_start
            exUser.notification_end
            (max 1 ((calculate_norm exUser.weight exUser.gender
              exUser.activity_level
              (lookup_temp (exEnv 8 3 "2024-06-01") exUser) + 249) / 250))⟩ :=
  ⟨(claim_C9 (exEnv 8 6 "2024-06-01") dbNoSched exUser ⟨8, 6, "2024-06-01"⟩
      (by decide) (by decide)).1 (by decide),
    (claim_C9 (exEnv 8 3 "2024-06-01") dbNoSched exUser ⟨8, 3, "2024-06-01"⟩
      (by decide) (by decide)).2 (by decide)⟩

end WaterBot
